import Mathlib

/-!
Shallow embedding of the XORJ vault program (Solana/Anchor, Rust).

The repository contains three near-duplicate revisions of the same contract:
* `Jup`   — src/programs/vault/src/lib.rs        (real Jupiter CPI call)
* `Audit` — src/audit-package/source-code/src/programs/vault/lib.rs
            (total_deposited counter, deposit cap, simulated swap)
* `Basic` — src/src/programs/vault/lib.rs
            (total_deposited counter, no cap, stubbed trade)

Machine integers (u64) are modelled as Nat with explicit bounds; checked
arithmetic mirrors Rust's checked_add / checked_sub / checked_mul /
checked_div.  Each Anchor instruction handler becomes a pure function from
the caller identity and the relevant account state to a result: on success
the new state (plus any emitted event), on failure an error.  The Solana
runtime applies an instruction atomically — a failed instruction reverts
every account write and token transfer — so a failing run is embedded as an
error result carrying no state, exactly the all-or-nothing semantics the
host guarantees.

Anchor account constraints that run before the handler body are embedded as
leading checks: `has_one = owner` with `owner : Signer` forces the caller to
equal `vault.owner` (ownerMismatch on failure).  The SPL token ledger and
the Jupiter router are external collaborators; they are modelled from the
spec interface (§6): a transfer debits the source and credits the
destination and succeeds only when the source balance suffices; the router
either fails or atomically moves some amount out of the input holding and
some amount into the output holding.
-/

namespace VaultSpec

/-- u64::MAX -/
def U64MAX : Nat := 2 ^ 64 - 1

/-- Solana public keys are opaque identities; modelled as Nat. -/
abbrev Pubkey := Nat

/-- `Pubkey::default()` (the all-zero key). -/
def PUBKEY_DEFAULT : Pubkey := 0

/-- The `VaultError` enum (identical in all three revisions, except that the
`Basic` revision lacks the last three variants and the `Jup` revision lacks
`DepositCapExceeded`; the superset is used for all three). -/
inductive VaultError where
  | VaultInactive
  | InvalidAmount
  | InsufficientFunds
  | UnauthorizedBot
  | Overflow
  | Underflow
  | InvalidRouteData
  | SlippageExceeded
  | DepositCapExceeded
  deriving DecidableEq, Repr

/-- All ways an instruction can fail: a program-raised `VaultError`, an
Anchor constraint failure (`has_one = owner`), a token-ledger transfer
failure, or a failure of the external router CPI. -/
inductive ProgError where
  | vaultErr (e : VaultError)
  | ownerMismatch
  | ledgerFailure
  | routerFailure
  deriving DecidableEq, Repr

/-- Result of one instruction: the Rust `Result<α, ProgError>`.  (Defined
instead of `Except` so closed runs can be settled by `decide`.) -/
inductive TxResult (α : Type) where
  | ok (val : α)
  | err (e : ProgError)
  deriving DecidableEq, Repr

/-- Rust `u64::checked_add`. -/
def checked_add (a b : Nat) : Option Nat :=
  if a + b ≤ U64MAX then some (a + b) else none

/-- Rust `u64::checked_sub`. -/
def checked_sub (a b : Nat) : Option Nat :=
  if b ≤ a then some (a - b) else none

/-- Rust `u64::checked_mul`. -/
def checked_mul (a b : Nat) : Option Nat :=
  if a * b ≤ U64MAX then some (a * b) else none

/-- Rust `u64::checked_div` (fails only on division by zero). -/
def checked_div (a b : Nat) : Option Nat :=
  if b = 0 then none else some (a / b)

/-- The `TradeExecuted` event (same schema in the `Jup` and `Audit`
revisions). -/
structure TradeExecuted where
  vault : Pubkey
  bot_authority : Pubkey
  input_mint : Pubkey
  output_mint : Pubkey
  amount_in : Nat
  amount_out : Nat
  minimum_amount_out : Nat
  timestamp : Int
  deriving DecidableEq, Repr

namespace Audit

/-- `VaultAccount` of the audit-package revision. -/
structure VaultAccount where
  owner : Pubkey
  total_deposited : Nat
  bot_authority : Option Pubkey
  is_active : Bool
  created_at : Int
  bump : Nat
  deriving DecidableEq, Repr

/-- `CANARY_DEPOSIT_CAP` constant in `deposit` (1,000 USDC at 6 decimals). -/
def CANARY_DEPOSIT_CAP : Nat := 1000000000

/-- Accounts touched by `deposit` / `withdraw`: the vault record, the
user's token balance and the vault's token balance (token-account balances
live in the external ledger). -/
structure CustodyState where
  vault : VaultAccount
  user_balance : Nat
  vault_balance : Nat
  deriving DecidableEq, Repr

/-- `deposit` of the audit-package revision: owner-only (Anchor
`has_one = owner`), requires the vault active and `amount > 0`, transfers
`amount` from the user to the vault holding (ledgerFailure when the user's
balance is short), then `total_deposited.checked_add(amount)` (Overflow),
then the canary-cap check (DepositCapExceeded), then writes the counter. -/
def deposit (caller : Pubkey) (s : CustodyState) (amount : Nat) :
    TxResult CustodyState :=
  if caller ≠ s.vault.owner then .err .ownerMismatch
  else if ¬ s.vault.is_active then .err (.vaultErr .VaultInactive)
  else if ¬ (amount > 0) then .err (.vaultErr .InvalidAmount)
  else if ¬ (amount ≤ s.user_balance) then .err .ledgerFailure
  else
    match checked_add s.vault.total_deposited amount with
    | none => .err (.vaultErr .Overflow)
    | some new_total =>
      if ¬ (new_total ≤ CANARY_DEPOSIT_CAP) then
        .err (.vaultErr .DepositCapExceeded)
      else
        .ok { vault := { s.vault with total_deposited := new_total },
              user_balance := s.user_balance - amount,
              vault_balance := s.vault_balance + amount }

/-- `withdraw` of the audit-package revision: owner-only, requires
`amount > 0` and a vault holding balance of at least `amount`, transfers
from the vault holding to the user under the PDA signer, then
`total_deposited.checked_sub(amount)` (Underflow).  There is no
`is_active` gate. -/
def withdraw (caller : Pubkey) (s : CustodyState) (amount : Nat) :
    TxResult CustodyState :=
  if caller ≠ s.vault.owner then .err .ownerMismatch
  else if ¬ (amount > 0) then .err (.vaultErr .InvalidAmount)
  else if ¬ (s.vault_balance ≥ amount) then .err (.vaultErr .InsufficientFunds)
  else
    match checked_sub s.vault.total_deposited amount with
    | none => .err (.vaultErr .Underflow)
    | some new_total =>
      .ok { vault := { s.vault with total_deposited := new_total },
            user_balance := s.user_balance + amount,
            vault_balance := s.vault_balance - amount }

/-- Accounts touched by `bot_trade`: the vault record and the two holding
balances (input and output token accounts). -/
structure TradeState where
  vault : VaultAccount
  vault_balance : Nat
  output_balance : Nat
  deriving DecidableEq, Repr

/-- Successful `bot_trade` outcome: the post-state and the emitted
`TradeExecuted` event. -/
structure TradeOk where
  state : TradeState
  event : TradeExecuted
  deriving DecidableEq, Repr

/-- `bot_trade` of the audit-package revision, check for check in source
order: is_active (VaultInactive); `bot_authority == Some(caller)`
(UnauthorizedBot); `amount_in > 0` then `minimum_amount_out > 0`
(InvalidAmount); input holding balance ≥ amount_in (InsufficientFunds);
non-empty route_data (InvalidRouteData); jupiter program key ≠ default
(InvalidRouteData); then the simulated swap
`amount_in.checked_mul(95)` (Overflow) `.checked_div(100)` (Underflow);
simulated output ≥ minimum_amount_out (SlippageExceeded); on success emits
`TradeExecuted` with the simulated output as amount_out.  No balance is
moved and the vault record is never written. -/
def bot_trade (caller : Pubkey) (s : TradeState)
    (amount_in minimum_amount_out : Nat) (route_data : List Nat)
    (jupiter_program_key : Pubkey)
    (vault_key input_mint output_mint : Pubkey) (now : Int) :
    TxResult TradeOk :=
  if ¬ s.vault.is_active then .err (.vaultErr .VaultInactive)
  else if ¬ (s.vault.bot_authority = some caller) then
    .err (.vaultErr .UnauthorizedBot)
  else if ¬ (amount_in > 0) then .err (.vaultErr .InvalidAmount)
  else if ¬ (minimum_amount_out > 0) then .err (.vaultErr .InvalidAmount)
  else if ¬ (s.vault_balance ≥ amount_in) then
    .err (.vaultErr .InsufficientFunds)
  else if route_data.isEmpty then .err (.vaultErr .InvalidRouteData)
  else if jupiter_program_key = PUBKEY_DEFAULT then
    .err (.vaultErr .InvalidRouteData)
  else
    match checked_mul amount_in 95 with
    | none => .err (.vaultErr .Overflow)
    | some m =>
      match checked_div m 100 with
      | none => .err (.vaultErr .Underflow)
      | some simulated_output =>
        if ¬ (simulated_output ≥ minimum_amount_out) then
          .err (.vaultErr .SlippageExceeded)
        else
          .ok { state := s,
                event := { vault := vault_key, bot_authority := caller,
                           input_mint := input_mint,
                           output_mint := output_mint,
                           amount_in := amount_in,
                           amount_out := simulated_output,
                           minimum_amount_out := minimum_amount_out,
                           timestamp := now } }

/-- `deactivate_vault` of the audit-package revision: owner-only,
unconditionally sets `is_active = false` and `bot_authority = None`. -/
def deactivate_vault (caller : Pubkey) (vault : VaultAccount) :
    TxResult VaultAccount :=
  if caller ≠ vault.owner then .err .ownerMismatch
  else .ok { vault with is_active := false, bot_authority := none }

end Audit

namespace Jup

/-- `VaultAccount` of the Jupiter-CPI revision
(src/programs/vault/src/lib.rs) — note: no `total_deposited` field. -/
structure VaultAccount where
  owner : Pubkey
  bot_authority : Option Pubkey
  is_active : Bool
  created_at : Int
  bump : Nat
  deriving DecidableEq, Repr

/-- Accounts touched by this revision's `withdraw`: the vault record, the
user's token balance and the vault's token balance. -/
structure CustodyState where
  vault : VaultAccount
  user_balance : Nat
  vault_balance : Nat
  deriving DecidableEq, Repr

/-- `withdraw` of the Jupiter-CPI revision: owner-only, requires
`amount > 0` and vault holding balance ≥ amount, transfers from the vault
holding to the user under the PDA signer.  No `is_active` gate and no
counter update (this revision has no `total_deposited`). -/
def withdraw (caller : Pubkey) (s : CustodyState) (amount : Nat) :
    TxResult CustodyState :=
  if caller ≠ s.vault.owner then .err .ownerMismatch
  else if ¬ (amount > 0) then .err (.vaultErr .InvalidAmount)
  else if ¬ (s.vault_balance ≥ amount) then .err (.vaultErr .InsufficientFunds)
  else
    .ok { vault := s.vault,
          user_balance := s.user_balance + amount,
          vault_balance := s.vault_balance - amount }

/-- Accounts touched by `bot_trade`: the vault record and the input and
output holding balances. -/
structure TradeState where
  vault : VaultAccount
  vault_balance : Nat
  output_balance : Nat
  deriving DecidableEq, Repr

/-- Modelled from the spec: the External Swap Router (§6) is outside this
repository; `jupiter_cpi::route` either fails the CPI or atomically moves
`spent` out of the vault's input holding and credits `received` to its
output holding.  The realized amounts are determined by the caller-supplied
opaque `Route` and the router's execution, not by this program: the source
passes only `(cpi_ctx, route)` to `jupiter_cpi::route`, so the handler's
`amount_in` and `minimum_amount_out` arguments are NOT forwarded to the
router. -/
structure RouterOutcome where
  spent : Nat
  received : Nat
  deriving DecidableEq, Repr

/-- Successful `bot_trade` outcome of the Jupiter-CPI revision: the
post-state and the emitted `TradeExecuted` event. -/
structure TradeOk where
  state : TradeState
  event : TradeExecuted
  deriving DecidableEq, Repr

/-- `bot_trade` of the Jupiter-CPI revision, check for check in source
order: is_active (VaultInactive); `bot_authority == Some(caller)`
(UnauthorizedBot); then directly the `jupiter_cpi::route` CPI under the PDA
signer (`router = none` embeds a failing CPI, which fails the whole
instruction).  There is no amount validation, no route-data validation, no
balance check and no post-CPI slippage verification.  On success it emits
`TradeExecuted` with `amount_out := minimum_amount_out` — the source
comment on that field reads: Not the actual amount out, but the minimum
expected.  The vault record is never written. -/
def bot_trade (caller : Pubkey) (s : TradeState)
    (router : Option RouterOutcome)
    (amount_in minimum_amount_out : Nat)
    (vault_key input_mint output_mint : Pubkey) (now : Int) :
    TxResult TradeOk :=
  if ¬ s.vault.is_active then .err (.vaultErr .VaultInactive)
  else if ¬ (s.vault.bot_authority = some caller) then
    .err (.vaultErr .UnauthorizedBot)
  else
    match router with
    | none => .err .routerFailure
    | some r =>
      .ok { state := { vault := s.vault,
                       vault_balance := s.vault_balance - r.spent,
                       output_balance := s.output_balance + r.received },
            event := { vault := vault_key, bot_authority := caller,
                       input_mint := input_mint, output_mint := output_mint,
                       amount_in := amount_in,
                       amount_out := minimum_amount_out,
                       minimum_amount_out := minimum_amount_out,
                       timestamp := now } }

/-- `deactivate_vault` of the Jupiter-CPI revision: owner-only,
unconditionally sets `is_active = false` and `bot_authority = None`. -/
def deactivate_vault (caller : Pubkey) (vault : VaultAccount) :
    TxResult VaultAccount :=
  if caller ≠ vault.owner then .err .ownerMismatch
  else .ok { vault with is_active := false, bot_authority := none }

end Jup

namespace Basic

/-- `VaultAccount` of the basic revision (src/src/programs/vault/lib.rs);
fields identical to the audit-package revision. -/
structure VaultAccount where
  owner : Pubkey
  total_deposited : Nat
  bot_authority : Option Pubkey
  is_active : Bool
  created_at : Int
  bump : Nat
  deriving DecidableEq, Repr

/-- Accounts touched by `deposit` / `withdraw` in the basic revision. -/
structure CustodyState where
  vault : VaultAccount
  user_balance : Nat
  vault_balance : Nat
  deriving DecidableEq, Repr

/-- `deposit` of the basic revision: like the audit-package revision but
with no deposit cap — owner-only, vault must be active, `amount > 0`,
ledger transfer in, then `total_deposited.checked_add(amount)`
(Overflow). -/
def deposit (caller : Pubkey) (s : CustodyState) (amount : Nat) :
    TxResult CustodyState :=
  if caller ≠ s.vault.owner then .err .ownerMismatch
  else if ¬ s.vault.is_active then .err (.vaultErr .VaultInactive)
  else if ¬ (amount > 0) then .err (.vaultErr .InvalidAmount)
  else if ¬ (amount ≤ s.user_balance) then .err .ledgerFailure
  else
    match checked_add s.vault.total_deposited amount with
    | none => .err (.vaultErr .Overflow)
    | some new_total =>
      .ok { vault := { s.vault with total_deposited := new_total },
            user_balance := s.user_balance - amount,
            vault_balance := s.vault_balance + amount }

/-- `withdraw` of the basic revision: textually the same logic as the
audit-package revision — owner-only, `amount > 0`, holding balance ≥
amount, ledger transfer out, then `total_deposited.checked_sub(amount)`
(Underflow).  No `is_active` gate. -/
def withdraw (caller : Pubkey) (s : CustodyState) (amount : Nat) :
    TxResult CustodyState :=
  if caller ≠ s.vault.owner then .err .ownerMismatch
  else if ¬ (amount > 0) then .err (.vaultErr .InvalidAmount)
  else if ¬ (s.vault_balance ≥ amount) then .err (.vaultErr .InsufficientFunds)
  else
    match checked_sub s.vault.total_deposited amount with
    | none => .err (.vaultErr .Underflow)
    | some new_total =>
      .ok { vault := { s.vault with total_deposited := new_total },
            user_balance := s.user_balance + amount,
            vault_balance := s.vault_balance - amount }

/-- Accounts touched by the basic revision's `bot_trade`: the vault record
(taken by immutable reference in the source) and the vault token balance. -/
structure TradeState where
  vault : VaultAccount
  vault_balance : Nat
  deriving DecidableEq, Repr

/-- `bot_trade` of the basic revision: is_active (VaultInactive);
`bot_authority == Some(caller)` (UnauthorizedBot); `amount > 0`
(InvalidAmount); holding balance ≥ amount (InsufficientFunds); then nothing
— the trading logic is a TODO and the handler returns Ok.  The vault is
borrowed immutably, so the state passes through unchanged. -/
def bot_trade (caller : Pubkey) (s : TradeState) (amount : Nat) :
    TxResult TradeState :=
  if ¬ s.vault.is_active then .err (.vaultErr .VaultInactive)
  else if ¬ (s.vault.bot_authority = some caller) then
    .err (.vaultErr .UnauthorizedBot)
  else if ¬ (amount > 0) then .err (.vaultErr .InvalidAmount)
  else if ¬ (s.vault_balance ≥ amount) then .err (.vaultErr .InsufficientFunds)
  else .ok s

end Basic

/-- C1: in every revision, a `bot_trade` call on an active vault whose
`bot_authority` is not `Some(caller)` — including `bot_authority = None` —
fails with `UnauthorizedBot`; the error result carries no state, so no
transfer happens and no record field is mutated. -/
theorem C1_unauthorized_bot_rejected
    (cJ : Pubkey) (sJ : Jup.TradeState) (router : Option Jup.RouterOutcome)
    (aJ mJ : Nat) (kJ iJ oJ : Pubkey) (tJ : Int)
    (hJ1 : sJ.vault.is_active = true) (hJ2 : sJ.vault.bot_authority ≠ some cJ)
    (cA : Pubkey) (sA : Audit.TradeState) (aA mA : Nat) (rdA : List Nat)
    (jA kA iA oA : Pubkey) (tA : Int)
    (hA1 : sA.vault.is_active = true) (hA2 : sA.vault.bot_authority ≠ some cA)
    (cB : Pubkey) (sB : Basic.TradeState) (aB : Nat)
    (hB1 : sB.vault.is_active = true) (hB2 : sB.vault.bot_authority ≠ some cB) :
    Jup.bot_trade cJ sJ router aJ mJ kJ iJ oJ tJ
        = .err (.vaultErr .UnauthorizedBot)
    ∧ Audit.bot_trade cA sA aA mA rdA jA kA iA oA tA
        = .err (.vaultErr .UnauthorizedBot)
    ∧ Basic.bot_trade cB sB aB = .err (.vaultErr .UnauthorizedBot) := by
  refine ⟨?_, ?_, ?_⟩
  · simp [Jup.bot_trade, hJ1, hJ2]
  · simp [Audit.bot_trade, hA1, hA2]
  · simp [Basic.bot_trade, hB1, hB2]

/-- C1 witness: concrete active vaults delegated to key 5, called by key 6
(and, for the Jup revision, by key 6 with `bot_authority = none` would work
the same); all three revisions answer `UnauthorizedBot`. -/
theorem C1_unauthorized_bot_rejected_witness :
    Jup.bot_trade 6
      { vault := { owner := 1, bot_authority := some 5, is_active := true,
                   created_at := 0, bump := 254 },
        vault_balance := 0, output_balance := 0 }
      none 1 1 0 0 0 0 = .err (.vaultErr .UnauthorizedBot)
    ∧ Audit.bot_trade 6
      { vault := { owner := 1, total_deposited := 0, bot_authority := none,
                   is_active := true, created_at := 0, bump := 254 },
        vault_balance := 0, output_balance := 0 }
      1 1 [1] 9 0 0 0 0 = .err (.vaultErr .UnauthorizedBot)
    ∧ Basic.bot_trade 6
      { vault := { owner := 1, total_deposited := 0, bot_authority := some 5,
                   is_active := true, created_at := 0, bump := 254 },
        vault_balance := 0 }
      1 = .err (.vaultErr .UnauthorizedBot) :=
  C1_unauthorized_bot_rejected 6 _ none 1 1 0 0 0 0 (by decide) (by decide)
    6 _ 1 1 [1] 9 0 0 0 0 (by decide) (by decide)
    6 _ 1 (by decide) (by decide)

/-- C2 counterexample: the claim fails in two ways.  (1) In the
audit-package revision the empty-route check runs after the balance check:
an authorized call on an active vault with `amount_in = 1`,
`minimum_amount_out = 1`, an empty routing payload and a zero input-holding
balance fails with `InsufficientFunds`, not `InvalidRouteData`.  (2) In the
Jupiter-CPI revision there is no amount validation at all: an authorized
call with `amount_in = 0` and `minimum_amount_out = 0` does not fail with
`InvalidAmount` — it runs the router and succeeds. -/
theorem C2_counterexample :
    Audit.bot_trade 5
      { vault := { owner := 1, total_deposited := 0, bot_authority := some 5,
                   is_active := true, created_at := 0, bump := 254 },
        vault_balance := 0, output_balance := 0 }
      1 1 [] 9 100 200 300 0 = .err (.vaultErr .InsufficientFunds)
    ∧ VaultError.InsufficientFunds ≠ VaultError.InvalidRouteData
    ∧ Jup.bot_trade 5
      { vault := { owner := 1, bot_authority := some 5, is_active := true,
                   created_at := 0, bump := 254 },
        vault_balance := 0, output_balance := 0 }
      (some { spent := 0, received := 7 }) 0 0 100 200 300 0
      = .ok { state := { vault := { owner := 1, bot_authority := some 5,
                                    is_active := true, created_at := 0,
                                    bump := 254 },
                         vault_balance := 0, output_balance := 7 },
              event := { vault := 100, bot_authority := 5, input_mint := 200,
                         output_mint := 300, amount_in := 0, amount_out := 0,
                         minimum_amount_out := 0, timestamp := 0 } } := by
  refine ⟨by decide, by decide, by decide⟩

/-- C2 amended: in the audit-package revision, for every `bot_trade` on an
active vault by the authorized delegate, `amount_in = 0` or
`minimum_amount_out = 0` fails with `InvalidAmount`; and when both amounts
are positive AND the input-holding balance covers `amount_in`, an empty
routing payload fails with `InvalidRouteData`.  In all these cases the
error result carries no state: no swap, no mutation.  (The Jupiter-CPI
revision performs none of these validations.) -/
theorem C2_amended_validation
    (c : Pubkey) (s : Audit.TradeState) (a m : Nat) (rd : List Nat)
    (j k im om : Pubkey) (t : Int)
    (h1 : s.vault.is_active = true) (h2 : s.vault.bot_authority = some c) :
    (a = 0 ∨ m = 0 →
      Audit.bot_trade c s a m rd j k im om t = .err (.vaultErr .InvalidAmount))
    ∧ (0 < a → 0 < m → a ≤ s.vault_balance → rd = [] →
      Audit.bot_trade c s a m rd j k im om t
        = .err (.vaultErr .InvalidRouteData)) := by
  constructor
  · rintro (rfl | rfl)
    · simp [Audit.bot_trade, h1, h2]
    · rcases Nat.eq_zero_or_pos a with rfl | ha
      · simp [Audit.bot_trade, h1, h2]
      · simp [Audit.bot_trade, h1, h2, ha]
  · rintro ha hm hbal rfl
    simp [Audit.bot_trade, h1, h2, ha, hm, hbal]

/-- C2 amended witness: concrete runs through both branches of the amended
statement. -/
theorem C2_amended_validation_witness :
    ((0 : Nat) = 0 ∨ (7 : Nat) = 0 →
      Audit.bot_trade 5
        { vault := { owner := 1, total_deposited := 0, bot_authority := some 5,
                     is_active := true, created_at := 0, bump := 254 },
          vault_balance := 50, output_balance := 0 }
        0 7 [] 9 100 200 300 0 = .err (.vaultErr .InvalidAmount))
    ∧ ((0 : Nat) < 0 → (0 : Nat) < 7 → (0 : Nat) ≤ 50 → ([] : List Nat) = [] →
      Audit.bot_trade 5
        { vault := { owner := 1, total_deposited := 0, bot_authority := some 5,
                     is_active := true, created_at := 0, bump := 254 },
          vault_balance := 50, output_balance := 0 }
        0 7 [] 9 100 200 300 0 = .err (.vaultErr .InvalidRouteData)) :=
  C2_amended_validation 5 _ 0 7 [] 9 100 200 300 0 (by decide) (by decide)

/-- C3 counterexample: the spec scenario on the Jupiter-CPI revision —
delegate 5 calls bot_trade with `amount_in = 1000000` and
`minimum_amount_out = 950000`, the router realizes only 940000 — yet the
trade SUCCEEDS (the handler neither forwards `minimum_amount_out` to the
router nor verifies realized output), instead of failing with
`SlippageExceeded`. -/
theorem C3_counterexample :
    Jup.bot_trade 5
      { vault := { owner := 1, bot_authority := some 5, is_active := true,
                   created_at := 0, bump := 254 },
        vault_balance := 1000000, output_balance := 0 }
      (some { spent := 1000000, received := 940000 }) 1000000 950000
      100 200 300 0
      = .ok { state := { vault := { owner := 1, bot_authority := some 5,
                                    is_active := true, created_at := 0,
                                    bump := 254 },
                         vault_balance := 0, output_balance := 940000 },
              event := { vault := 100, bot_authority := 5, input_mint := 200,
                         output_mint := 300, amount_in := 1000000,
                         amount_out := 950000,
                         minimum_amount_out := 950000, timestamp := 0 } }
    ∧ (940000 : Nat) < 950000 := by
  refine ⟨by decide, by decide⟩

/-- C3 amended: in the audit-package revision, a `bot_trade` that passes
the gate, authorization, validation and balance checks succeeds exactly
when the computed output `amount_in * 95 / 100` reaches
`minimum_amount_out`; below it, it fails with `SlippageExceeded` and the
error result carries no state, so no holding balance changes.  On success
the post-state equals the pre-state (holding balances are untouched too in
this revision).  The Jupiter-CPI revision performs no program-side slippage
verification at all (see counterexample). -/
theorem C3_amended_slippage
    (c : Pubkey) (s : Audit.TradeState) (a m : Nat) (rd : List Nat)
    (j k im om : Pubkey) (t : Int)
    (h1 : s.vault.is_active = true) (h2 : s.vault.bot_authority = some c)
    (h3 : 0 < a) (h4 : 0 < m) (h5 : a ≤ s.vault_balance)
    (h6 : rd ≠ []) (h7 : j ≠ PUBKEY_DEFAULT) (h8 : a * 95 ≤ U64MAX) :
    (a * 95 / 100 < m →
      Audit.bot_trade c s a m rd j k im om t
        = .err (.vaultErr .SlippageExceeded))
    ∧ (m ≤ a * 95 / 100 →
      Audit.bot_trade c s a m rd j k im om t
        = .ok { state := s,
                event := { vault := k, bot_authority := c, input_mint := im,
                           output_mint := om, amount_in := a,
                           amount_out := a * 95 / 100,
                           minimum_amount_out := m, timestamp := t } }) := by
  constructor
  · intro hlt
    simp [Audit.bot_trade, checked_mul, checked_div, h1, h2, h3, h4, h5, h6,
      h7, h8, Nat.not_le.mpr hlt]
  · intro hge
    simp [Audit.bot_trade, checked_mul, checked_div, h1, h2, h3, h4, h5, h6,
      h7, h8, hge]

/-- C3 amended witness: the spec scenario numbers on the audit-package
revision — `amount_in = 1000000`, `minimum_amount_out = 950000`, simulated
output 950000: the slippage branch is vacuous and the success branch
fires. -/
theorem C3_amended_slippage_witness :
    ((1000000 : Nat) * 95 / 100 < 950000 →
      Audit.bot_trade 5
        { vault := { owner := 1, total_deposited := 0, bot_authority := some 5,
                     is_active := true, created_at := 0, bump := 254 },
          vault_balance := 1000000, output_balance := 0 }
        1000000 950000 [1] 9 100 200 300 0
        = .err (.vaultErr .SlippageExceeded))
    ∧ ((950000 : Nat) ≤ 1000000 * 95 / 100 →
      Audit.bot_trade 5
        { vault := { owner := 1, total_deposited := 0, bot_authority := some 5,
                     is_active := true, created_at := 0, bump := 254 },
          vault_balance := 1000000, output_balance := 0 }
        1000000 950000 [1] 9 100 200 300 0
        = .ok { state := { vault := { owner := 1, total_deposited := 0,
                                      bot_authority := some 5,
                                      is_active := true, created_at := 0,
                                      bump := 254 },
                           vault_balance := 1000000, output_balance := 0 },
                event := { vault := 100, bot_authority := 5, input_mint := 200,
                           output_mint := 300, amount_in := 1000000,
                           amount_out := 1000000 * 95 / 100,
                           minimum_amount_out := 950000, timestamp := 0 } }) :=
  C3_amended_slippage 5 _ 1000000 950000 [1] 9 100 200 300 0
    (by decide) (by decide) (by decide) (by decide) (by decide) (by decide)
    (by decide) (by decide)

/-- C4: on the Jupiter-CPI revision a successful trade with
`minimum_amount_out = 950000` whose router-realized output is 960000 (the
output holding gains 960000) emits a `TradeExecuted` event whose
`amount_out` field is 950000 — the requested minimum, not the realized
amount.  The source itself annotates the field: Not the actual amount out,
but the minimum expected. -/
theorem C4_event_amount_out_not_actual :
    Jup.bot_trade 5
      { vault := { owner := 1, bot_authority := some 5, is_active := true,
                   created_at := 0, bump := 254 },
        vault_balance := 1000000, output_balance := 0 }
      (some { spent := 1000000, received := 960000 }) 1000000 950000
      100 200 300 0
      = .ok { state := { vault := { owner := 1, bot_authority := some 5,
                                    is_active := true, created_at := 0,
                                    bump := 254 },
                         vault_balance := 0, output_balance := 960000 },
              event := { vault := 100, bot_authority := 5, input_mint := 200,
                         output_mint := 300, amount_in := 1000000,
                         amount_out := 950000,
                         minimum_amount_out := 950000, timestamp := 0 } }
    ∧ (950000 : Nat) ≠ 960000 := by
  refine ⟨by decide, by decide⟩

/-- C5: in both revisions that maintain the counter (audit-package and
basic), a deposit of `amount > 0` on an active vault by the owner that
passes the ledger transfer either sets
`total_deposited = total_deposited + amount` exactly (when the checked
addition fits in u64 — and, in the audit revision, under the cap), or
fails with `Overflow` when the sum exceeds u64::MAX; the error result
carries no state, so `total_deposited` is unchanged on failure. -/
theorem C5_deposit_counter_checked_add
    (cA : Pubkey) (sA : Audit.CustodyState) (aA : Nat)
    (hA1 : cA = sA.vault.owner) (hA2 : sA.vault.is_active = true)
    (hA3 : 0 < aA) (hA4 : aA ≤ sA.user_balance)
    (cB : Pubkey) (sB : Basic.CustodyState) (aB : Nat)
    (hB1 : cB = sB.vault.owner) (hB2 : sB.vault.is_active = true)
    (hB3 : 0 < aB) (hB4 : aB ≤ sB.user_balance) :
    (sA.vault.total_deposited + aA ≤ U64MAX →
      sA.vault.total_deposited + aA ≤ Audit.CANARY_DEPOSIT_CAP →
      Audit.deposit cA sA aA
        = .ok { vault := { sA.vault with
                  total_deposited := sA.vault.total_deposited + aA },
                user_balance := sA.user_balance - aA,
                vault_balance := sA.vault_balance + aA })
    ∧ (U64MAX < sA.vault.total_deposited + aA →
      Audit.deposit cA sA aA = .err (.vaultErr .Overflow))
    ∧ (sB.vault.total_deposited + aB ≤ U64MAX →
      Basic.deposit cB sB aB
        = .ok { vault := { sB.vault with
                  total_deposited := sB.vault.total_deposited + aB },
                user_balance := sB.user_balance - aB,
                vault_balance := sB.vault_balance + aB })
    ∧ (U64MAX < sB.vault.total_deposited + aB →
      Basic.deposit cB sB aB = .err (.vaultErr .Overflow)) := by
  subst hA1; subst hB1
  refine ⟨?_, ?_, ?_, ?_⟩
  · intro h5 h6
    simp [Audit.deposit, checked_add, hA2, hA3, hA4, h5, h6]
  · intro h5
    simp [Audit.deposit, checked_add, hA2, hA3, hA4, Nat.not_le.mpr h5]
  · intro h5
    simp [Basic.deposit, checked_add, hB2, hB3, hB4, h5]
  · intro h5
    simp [Basic.deposit, checked_add, hB2, hB3, hB4, Nat.not_le.mpr h5]

/-- C5 witness: the audit-revision instance exercises a successful deposit
(100 on top of 400, cap respected); the basic-revision instance has
`total_deposited = u64::MAX`, so depositing 1 overflows. -/
theorem C5_deposit_counter_checked_add_witness :
    ((400 : Nat) + 100 ≤ U64MAX → (400 : Nat) + 100 ≤ Audit.CANARY_DEPOSIT_CAP →
      Audit.deposit 1
        { vault := { owner := 1, total_deposited := 400, bot_authority := none,
                     is_active := true, created_at := 0, bump := 1 },
          user_balance := 1000, vault_balance := 400 } 100
        = .ok { vault := { owner := 1, total_deposited := 400 + 100,
                           bot_authority := none, is_active := true,
                           created_at := 0, bump := 1 },
                user_balance := 1000 - 100, vault_balance := 400 + 100 })
    ∧ (U64MAX < (400 : Nat) + 100 →
      Audit.deposit 1
        { vault := { owner := 1, total_deposited := 400, bot_authority := none,
                     is_active := true, created_at := 0, bump := 1 },
          user_balance := 1000, vault_balance := 400 } 100
        = .err (.vaultErr .Overflow))
    ∧ (U64MAX + 1 ≤ U64MAX →
      Basic.deposit 2
        { vault := { owner := 2, total_deposited := U64MAX,
                     bot_authority := none, is_active := true,
                     created_at := 0, bump := 1 },
          user_balance := 10, vault_balance := 0 } 1
        = .ok { vault := { owner := 2, total_deposited := U64MAX + 1,
                           bot_authority := none, is_active := true,
                           created_at := 0, bump := 1 },
                user_balance := 10 - 1, vault_balance := 0 + 1 })
    ∧ (U64MAX < U64MAX + 1 →
      Basic.deposit 2
        { vault := { owner := 2, total_deposited := U64MAX,
                     bot_authority := none, is_active := true,
                     created_at := 0, bump := 1 },
          user_balance := 10, vault_balance := 0 } 1
        = .err (.vaultErr .Overflow)) :=
  C5_deposit_counter_checked_add 1
    { vault := { owner := 1, total_deposited := 400, bot_authority := none,
                 is_active := true, created_at := 0, bump := 1 },
      user_balance := 1000, vault_balance := 400 }
    100 rfl (by decide) (by decide) (by decide)
    2
    { vault := { owner := 2, total_deposited := U64MAX, bot_authority := none,
                 is_active := true, created_at := 0, bump := 1 },
      user_balance := 10, vault_balance := 0 }
    1 rfl (by decide) (by decide) (by decide)

/-- C6: in both counter-maintaining revisions, a withdrawal of `amount > 0`
by the owner with holding balance ≥ amount either sets
`total_deposited = total_deposited - amount` exactly (when
`amount ≤ total_deposited`, so the counter never goes below zero), or
fails with `Underflow` when the subtraction would go negative; the error
result carries no state. -/
theorem C6_withdraw_counter_checked_sub
    (cA : Pubkey) (sA : Audit.CustodyState) (aA : Nat)
    (hA1 : cA = sA.vault.owner) (hA2 : 0 < aA) (hA3 : aA ≤ sA.vault_balance)
    (cB : Pubkey) (sB : Basic.CustodyState) (aB : Nat)
    (hB1 : cB = sB.vault.owner) (hB2 : 0 < aB) (hB3 : aB ≤ sB.vault_balance) :
    (aA ≤ sA.vault.total_deposited →
      Audit.withdraw cA sA aA
        = .ok { vault := { sA.vault with
                  total_deposited := sA.vault.total_deposited - aA },
                user_balance := sA.user_balance + aA,
                vault_balance := sA.vault_balance - aA })
    ∧ (sA.vault.total_deposited < aA →
      Audit.withdraw cA sA aA = .err (.vaultErr .Underflow))
    ∧ (aB ≤ sB.vault.total_deposited →
      Basic.withdraw cB sB aB
        = .ok { vault := { sB.vault with
                  total_deposited := sB.vault.total_deposited - aB },
                user_balance := sB.user_balance + aB,
                vault_balance := sB.vault_balance - aB })
    ∧ (sB.vault.total_deposited < aB →
      Basic.withdraw cB sB aB = .err (.vaultErr .Underflow)) := by
  subst hA1; subst hB1
  refine ⟨?_, ?_, ?_, ?_⟩
  · intro h4
    simp [Audit.withdraw, checked_sub, hA2, hA3, h4]
  · intro h4
    simp [Audit.withdraw, checked_sub, hA2, hA3, Nat.not_le.mpr h4]
  · intro h4
    simp [Basic.withdraw, checked_sub, hB2, hB3, h4]
  · intro h4
    simp [Basic.withdraw, checked_sub, hB2, hB3, Nat.not_le.mpr h4]

/-- C6 witness: the audit-revision instance exercises a successful
withdrawal (300 out of 400); the basic-revision instance withdraws 50 with
`total_deposited = 20 < 50` and balance 100, hitting `Underflow`. -/
theorem C6_withdraw_counter_checked_sub_witness :
    ((300 : Nat) ≤ 400 →
      Audit.withdraw 1
        { vault := { owner := 1, total_deposited := 400, bot_authority := none,
                     is_active := true, created_at := 0, bump := 1 },
          user_balance := 0, vault_balance := 400 } 300
        = .ok { vault := { owner := 1, total_deposited := 400 - 300,
                           bot_authority := none, is_active := true,
                           created_at := 0, bump := 1 },
                user_balance := 0 + 300, vault_balance := 400 - 300 })
    ∧ ((400 : Nat) < 300 →
      Audit.withdraw 1
        { vault := { owner := 1, total_deposited := 400, bot_authority := none,
                     is_active := true, created_at := 0, bump := 1 },
          user_balance := 0, vault_balance := 400 } 300
        = .err (.vaultErr .Underflow))
    ∧ ((50 : Nat) ≤ 20 →
      Basic.withdraw 2
        { vault := { owner := 2, total_deposited := 20, bot_authority := none,
                     is_active := true, created_at := 0, bump := 1 },
          user_balance := 0, vault_balance := 100 } 50
        = .ok { vault := { owner := 2, total_deposited := 20 - 50,
                           bot_authority := none, is_active := true,
                           created_at := 0, bump := 1 },
                user_balance := 0 + 50, vault_balance := 100 - 50 })
    ∧ ((20 : Nat) < 50 →
      Basic.withdraw 2
        { vault := { owner := 2, total_deposited := 20, bot_authority := none,
                     is_active := true, created_at := 0, bump := 1 },
          user_balance := 0, vault_balance := 100 } 50
        = .err (.vaultErr .Underflow)) :=
  C6_withdraw_counter_checked_sub 1
    { vault := { owner := 1, total_deposited := 400, bot_authority := none,
                 is_active := true, created_at := 0, bump := 1 },
      user_balance := 0, vault_balance := 400 }
    300 rfl (by decide) (by decide)
    2
    { vault := { owner := 2, total_deposited := 20, bot_authority := none,
                 is_active := true, created_at := 0, bump := 1 },
      user_balance := 0, vault_balance := 100 }
    50 rfl (by decide) (by decide)

/-- C7: in the audit-package revision the cap `CANARY_DEPOSIT_CAP =
1000000000` is enforced — any deposit whose resulting counter would exceed
it fails with `DepositCapExceeded`, and the error result carries no state,
so `total_deposited` keeps its prior value and the ledger transfer is not
left applied (the runtime reverts the whole instruction).  In particular
(closed conjuncts): on a fresh vault a deposit of 500000000 succeeds with
counter 500000000, and a further deposit of 600000000 then fails with
`DepositCapExceeded`. -/
theorem C7_deposit_cap_enforced
    (c : Pubkey) (s : Audit.CustodyState) (a : Nat)
    (h1 : c = s.vault.owner) (h2 : s.vault.is_active = true) (h3 : 0 < a)
    (h4 : a ≤ s.user_balance) (h5 : s.vault.total_deposited + a ≤ U64MAX)
    (h6 : Audit.CANARY_DEPOSIT_CAP < s.vault.total_deposited + a) :
    Audit.deposit c s a = .err (.vaultErr .DepositCapExceeded)
    ∧ Audit.deposit 1
        { vault := { owner := 1, total_deposited := 0, bot_authority := none,
                     is_active := true, created_at := 0, bump := 1 },
          user_balance := 2000000000, vault_balance := 0 } 500000000
        = .ok { vault := { owner := 1, total_deposited := 500000000,
                           bot_authority := none, is_active := true,
                           created_at := 0, bump := 1 },
                user_balance := 1500000000, vault_balance := 500000000 }
    ∧ Audit.deposit 1
        { vault := { owner := 1, total_deposited := 500000000,
                     bot_authority := none, is_active := true,
                     created_at := 0, bump := 1 },
          user_balance := 1500000000, vault_balance := 500000000 } 600000000
        = .err (.vaultErr .DepositCapExceeded) := by
  subst h1
  refine ⟨?_, by decide, by decide⟩
  simp [Audit.deposit, checked_add, h2, h3, h4, h5, Nat.not_le.mpr h6]

/-- C7 witness: deposit 200000000 on a counter already at 900000000 —
the sum 1100000000 exceeds the 1000000000 cap. -/
theorem C7_deposit_cap_enforced_witness :
    Audit.deposit 3
      { vault := { owner := 3, total_deposited := 900000000,
                   bot_authority := none, is_active := true,
                   created_at := 0, bump := 1 },
        user_balance := 300000000, vault_balance := 900000000 } 200000000
      = .err (.vaultErr .DepositCapExceeded)
    ∧ Audit.deposit 1
        { vault := { owner := 1, total_deposited := 0, bot_authority := none,
                     is_active := true, created_at := 0, bump := 1 },
          user_balance := 2000000000, vault_balance := 0 } 500000000
        = .ok { vault := { owner := 1, total_deposited := 500000000,
                           bot_authority := none, is_active := true,
                           created_at := 0, bump := 1 },
                user_balance := 1500000000, vault_balance := 500000000 }
    ∧ Audit.deposit 1
        { vault := { owner := 1, total_deposited := 500000000,
                     bot_authority := none, is_active := true,
                     created_at := 0, bump := 1 },
          user_balance := 1500000000, vault_balance := 500000000 } 600000000
        = .err (.vaultErr .DepositCapExceeded) :=
  C7_deposit_cap_enforced 3
    { vault := { owner := 3, total_deposited := 900000000,
                 bot_authority := none, is_active := true,
                 created_at := 0, bump := 1 },
      user_balance := 300000000, vault_balance := 900000000 }
    200000000 rfl (by decide) (by decide) (by decide) (by decide) (by decide)

/-- C8 counterexample: in the audit-package revision an inactive vault with
`total_deposited = 0` but a holding balance of 100 (balances live in the
external ledger and can exceed the counter) rejects an owner withdrawal of
50 with `Underflow` — the claim says such a call succeeds. -/
theorem C8_counterexample :
    Audit.withdraw 1
      { vault := { owner := 1, total_deposited := 0, bot_authority := none,
                   is_active := false, created_at := 0, bump := 1 },
        user_balance := 0, vault_balance := 100 } 50
      = .err (.vaultErr .Underflow) := by decide

/-- C8 amended: withdrawal is indeed not gated on `is_active` — the
hypotheses say nothing about the active flag, so the conclusions hold on
inactive vaults in particular.  An owner withdrawal of `0 < amount ≤`
holding balance succeeds unconditionally in the Jupiter-CPI revision, and
in the audit-package revision succeeds whenever additionally
`amount ≤ total_deposited`; in no case does the audit-package `withdraw`
return `VaultInactive`. -/
theorem C8_amended_withdraw_not_gated
    (cJ : Pubkey) (sJ : Jup.CustodyState) (aJ : Nat)
    (hJ1 : cJ = sJ.vault.owner) (hJ2 : 0 < aJ) (hJ3 : aJ ≤ sJ.vault_balance)
    (cA : Pubkey) (sA : Audit.CustodyState) (aA : Nat)
    (hA1 : cA = sA.vault.owner) (hA2 : 0 < aA) (hA3 : aA ≤ sA.vault_balance) :
    Jup.withdraw cJ sJ aJ
      = .ok { vault := sJ.vault, user_balance := sJ.user_balance + aJ,
              vault_balance := sJ.vault_balance - aJ }
    ∧ (aA ≤ sA.vault.total_deposited →
      Audit.withdraw cA sA aA
        = .ok { vault := { sA.vault with
                  total_deposited := sA.vault.total_deposited - aA },
                user_balance := sA.user_balance + aA,
                vault_balance := sA.vault_balance - aA })
    ∧ Audit.withdraw cA sA aA ≠ .err (.vaultErr .VaultInactive) := by
  subst hJ1; subst hA1
  refine ⟨?_, ?_, ?_⟩
  · simp [Jup.withdraw, hJ2, hJ3]
  · intro h4
    simp [Audit.withdraw, checked_sub, hA2, hA3, h4]
  · rcases Nat.lt_or_ge sA.vault.total_deposited aA with h | h
    · simp [Audit.withdraw, checked_sub, hA2, hA3, Nat.not_le.mpr h]
    · simp [Audit.withdraw, checked_sub, hA2, hA3, h]

/-- C8 amended witness: owner withdrawals from INACTIVE vaults — the
Jupiter revision returns the transferred state, the audit revision (with
`amount ≤ total_deposited`) likewise; neither answers `VaultInactive`. -/
theorem C8_amended_withdraw_not_gated_witness :
    Jup.withdraw 1
      { vault := { owner := 1, bot_authority := none, is_active := false,
                   created_at := 0, bump := 1 },
        user_balance := 5, vault_balance := 80 } 30
      = .ok { vault := { owner := 1, bot_authority := none,
                         is_active := false, created_at := 0, bump := 1 },
              user_balance := 5 + 30, vault_balance := 80 - 30 }
    ∧ ((40 : Nat) ≤ 70 →
      Audit.withdraw 2
        { vault := { owner := 2, total_deposited := 70, bot_authority := none,
                     is_active := false, created_at := 0, bump := 1 },
          user_balance := 0, vault_balance := 70 } 40
        = .ok { vault := { owner := 2, total_deposited := 70 - 40,
                           bot_authority := none, is_active := false,
                           created_at := 0, bump := 1 },
                user_balance := 0 + 40, vault_balance := 70 - 40 })
    ∧ Audit.withdraw 2
        { vault := { owner := 2, total_deposited := 70, bot_authority := none,
                     is_active := false, created_at := 0, bump := 1 },
          user_balance := 0, vault_balance := 70 } 40
        ≠ .err (.vaultErr .VaultInactive) :=
  C8_amended_withdraw_not_gated 1
    { vault := { owner := 1, bot_authority := none, is_active := false,
                 created_at := 0, bump := 1 },
      user_balance := 5, vault_balance := 80 }
    30 rfl (by decide) (by decide)
    2
    { vault := { owner := 2, total_deposited := 70, bot_authority := none,
                 is_active := false, created_at := 0, bump := 1 },
      user_balance := 0, vault_balance := 70 }
    40 rfl (by decide) (by decide)

/-- C9: in both the Jupiter-CPI and audit-package revisions,
`deactivate_vault` by the owner always succeeds from ANY prior state,
yielding `is_active = false` and `bot_authority = none` with every other
field (owner, created_at, bump, and total_deposited in the audit revision)
unchanged; running it again on the result returns the same record
(idempotent); and a subsequent `bot_trade` against the deactivated record —
by the previously delegated identity or anyone else, with any arguments —
fails with `VaultInactive`. -/
theorem C9_deactivate_clears_and_blocks
    (cJ : Pubkey) (vJ : Jup.VaultAccount) (hJ : cJ = vJ.owner)
    (dJ : Pubkey) (balJ obalJ : Nat) (routerJ : Option Jup.RouterOutcome)
    (aJ mJ : Nat) (kJ iJ oJ : Pubkey) (tJ : Int)
    (cA : Pubkey) (vA : Audit.VaultAccount) (hA : cA = vA.owner)
    (dA : Pubkey) (balA obalA : Nat) (aA mA : Nat) (rdA : List Nat)
    (jA kA iA oA : Pubkey) (tA : Int) :
    Jup.deactivate_vault cJ vJ
      = .ok { vJ with is_active := false, bot_authority := none }
    ∧ Jup.deactivate_vault cJ { vJ with is_active := false,
                                        bot_authority := none }
      = .ok { vJ with is_active := false, bot_authority := none }
    ∧ Jup.bot_trade dJ
        { vault := { vJ with is_active := false, bot_authority := none },
          vault_balance := balJ, output_balance := obalJ }
        routerJ aJ mJ kJ iJ oJ tJ = .err (.vaultErr .VaultInactive)
    ∧ Audit.deactivate_vault cA vA
      = .ok { vA with is_active := false, bot_authority := none }
    ∧ Audit.deactivate_vault cA { vA with is_active := false,
                                          bot_authority := none }
      = .ok { vA with is_active := false, bot_authority := none }
    ∧ Audit.bot_trade dA
        { vault := { vA with is_active := false, bot_authority := none },
          vault_balance := balA, output_balance := obalA }
        aA mA rdA jA kA iA oA tA = .err (.vaultErr .VaultInactive) := by
  subst hJ; subst hA
  refine ⟨?_, ?_, ?_, ?_, ?_, ?_⟩
  · simp [Jup.deactivate_vault]
  · simp [Jup.deactivate_vault]
  · simp [Jup.bot_trade]
  · simp [Audit.deactivate_vault]
  · simp [Audit.deactivate_vault]
  · simp [Audit.bot_trade]

/-- C9 witness: a previously delegated, active vault (delegate 5) is
deactivated by its owner; re-deactivation is a no-op; and the previous
delegate's subsequent trade attempt fails with `VaultInactive`. -/
theorem C9_deactivate_clears_and_blocks_witness :
    Jup.deactivate_vault 1
      { owner := 1, bot_authority := some 5, is_active := true,
        created_at := 9, bump := 254 }
      = .ok { owner := 1, bot_authority := none, is_active := false,
              created_at := 9, bump := 254 }
    ∧ Jup.deactivate_vault 1
      { owner := 1, bot_authority := none, is_active := false,
        created_at := 9, bump := 254 }
      = .ok { owner := 1, bot_authority := none, is_active := false,
              created_at := 9, bump := 254 }
    ∧ Jup.bot_trade 5
        { vault := { owner := 1, bot_authority := none, is_active := false,
                     created_at := 9, bump := 254 },
          vault_balance := 100, output_balance := 0 }
        (some { spent := 10, received := 9 }) 10 9 100 200 300 0
      = .err (.vaultErr .VaultInactive)
    ∧ Audit.deactivate_vault 2
      { owner := 2, total_deposited := 33, bot_authority := some 5,
        is_active := true, created_at := 9, bump := 254 }
      = .ok { owner := 2, total_deposited := 33, bot_authority := none,
              is_active := false, created_at := 9, bump := 254 }
    ∧ Audit.deactivate_vault 2
      { owner := 2, total_deposited := 33, bot_authority := none,
        is_active := false, created_at := 9, bump := 254 }
      = .ok { owner := 2, total_deposited := 33, bot_authority := none,
              is_active := false, created_at := 9, bump := 254 }
    ∧ Audit.bot_trade 5
        { vault := { owner := 2, total_deposited := 33, bot_authority := none,
                     is_active := false, created_at := 9, bump := 254 },
          vault_balance := 100, output_balance := 0 }
        10 9 [1] 9 100 200 300 0
      = .err (.vaultErr .VaultInactive) :=
  C9_deactivate_clears_and_blocks 1
    { owner := 1, bot_authority := some 5, is_active := true,
      created_at := 9, bump := 254 }
    rfl 5 100 0 (some { spent := 10, received := 9 }) 10 9 100 200 300 0
    2
    { owner := 2, total_deposited := 33, bot_authority := some 5,
      is_active := true, created_at := 9, bump := 254 }
    rfl 5 100 0 10 9 [1] 9 100 200 300 0

/-- C10: in every revision, a successful `bot_trade` returns a post-state
whose vault record equals the pre-state record — every field (owner,
total_deposited where present, bot_authority, is_active, created_at, bump)
is preserved; a failing call returns an error carrying no state, so the
record is untouched there as well.  Trades move token holdings but never
write the record, so in particular `total_deposited` does not track value
leaving the vault through swaps. -/
theorem C10_bot_trade_preserves_vault_record
    (cJ : Pubkey) (sJ : Jup.TradeState) (routerJ : Option Jup.RouterOutcome)
    (aJ mJ : Nat) (kJ iJ oJ : Pubkey) (tJ : Int) (rJ : Jup.TradeOk)
    (hJ : Jup.bot_trade cJ sJ routerJ aJ mJ kJ iJ oJ tJ = .ok rJ)
    (cA : Pubkey) (sA : Audit.TradeState) (aA mA : Nat) (rdA : List Nat)
    (jA kA iA oA : Pubkey) (tA : Int) (rA : Audit.TradeOk)
    (hA : Audit.bot_trade cA sA aA mA rdA jA kA iA oA tA = .ok rA)
    (cB : Pubkey) (sB : Basic.TradeState) (aB : Nat) (rB : Basic.TradeState)
    (hB : Basic.bot_trade cB sB aB = .ok rB) :
    rJ.state.vault = sJ.vault ∧ rA.state.vault = sA.vault
    ∧ rB.vault = sB.vault := by
  refine ⟨?_, ?_, ?_⟩
  · unfold Jup.bot_trade at hJ
    repeat' split at hJ
    all_goals cases hJ
    all_goals rfl
  · unfold Audit.bot_trade at hA
    repeat' split at hA
    all_goals cases hA
    all_goals rfl
  · unfold Basic.bot_trade at hB
    repeat' split at hB
    all_goals cases hB
    all_goals rfl

/-- C10 witness: one concrete successful trade per revision; in each case
the returned vault record equals the one supplied. -/
theorem C10_bot_trade_preserves_vault_record_witness :
    ({ state := { vault := { owner := 1, bot_authority := some 5,
                             is_active := true, created_at := 0, bump := 254 },
                  vault_balance := 60, output_balance := 39 },
       event := { vault := 100, bot_authority := 5, input_mint := 200,
                  output_mint := 300, amount_in := 40, amount_out := 39,
                  minimum_amount_out := 39, timestamp := 0 } }
      : Jup.TradeOk).state.vault
      = ({ vault := { owner := 1, bot_authority := some 5, is_active := true,
                      created_at := 0, bump := 254 },
           vault_balance := 100, output_balance := 0 }
          : Jup.TradeState).vault
    ∧ ({ state := { vault := { owner := 1, total_deposited := 0,
                               bot_authority := some 5, is_active := true,
                               created_at := 0, bump := 254 },
                    vault_balance := 100, output_balance := 0 },
         event := { vault := 100, bot_authority := 5, input_mint := 200,
                    output_mint := 300, amount_in := 100, amount_out := 95,
                    minimum_amount_out := 95, timestamp := 0 } }
        : Audit.TradeOk).state.vault
      = ({ vault := { owner := 1, total_deposited := 0,
                      bot_authority := some 5, is_active := true,
                      created_at := 0, bump := 254 },
           vault_balance := 100, output_balance := 0 }
          : Audit.TradeState).vault
    ∧ ({ vault := { owner := 1, total_deposited := 0, bot_authority := some 5,
                    is_active := true, created_at := 0, bump := 254 },
         vault_balance := 10 } : Basic.TradeState).vault
      = ({ vault := { owner := 1, total_deposited := 0, bot_authority := some 5,
                      is_active := true, created_at := 0, bump := 254 },
           vault_balance := 10 } : Basic.TradeState).vault :=
  C10_bot_trade_preserves_vault_record 5
    { vault := { owner := 1, bot_authority := some 5, is_active := true,
                 created_at := 0, bump := 254 },
      vault_balance := 100, output_balance := 0 }
    (some { spent := 40, received := 39 }) 40 39 100 200 300 0
    { state := { vault := { owner := 1, bot_authority := some 5,
                            is_active := true, created_at := 0, bump := 254 },
                 vault_balance := 60, output_balance := 39 },
      event := { vault := 100, bot_authority := 5, input_mint := 200,
                 output_mint := 300, amount_in := 40, amount_out := 39,
                 minimum_amount_out := 39, timestamp := 0 } }
    (by decide)
    5
    { vault := { owner := 1, total_deposited := 0, bot_authority := some 5,
                 is_active := true, created_at := 0, bump := 254 },
      vault_balance := 100, output_balance := 0 }
    100 95 [1] 9 100 200 300 0
    { state := { vault := { owner := 1, total_deposited := 0,
                            bot_authority := some 5, is_active := true,
                            created_at := 0, bump := 254 },
                 vault_balance := 100, output_balance := 0 },
      event := { vault := 100, bot_authority := 5, input_mint := 200,
                 output_mint := 300, amount_in := 100, amount_out := 95,
                 minimum_amount_out := 95, timestamp := 0 } }
    (by decide)
    5
    { vault := { owner := 1, total_deposited := 0, bot_authority := some 5,
                 is_active := true, created_at := 0, bump := 254 },
      vault_balance := 10 }
    10
    { vault := { owner := 1, total_deposited := 0, bot_authority := some 5,
                 is_active := true, created_at := 0, bump := 254 },
      vault_balance := 10 }
    (by decide)

end VaultSpec
